import Mathlib

/-!
Verification development for the "El Penjat 3D" hangman game.

The TypeScript sources are shallowly embedded:
* `src/unnamed/part_000` (the `types` module): `GameStatus`, `GameData`,
  `Tile`, `MAX_ERRORS`, `GRID_SIZE`.
* `src/App.tsx`: the game state machine (`handleGuess`, `handleGameEnd`,
  the reset part of `startGame`, its error-classification catch branch,
  and the `keydown` handler), modelled as pure state transformers over an
  `AppState` record mirroring the React `useState` fields.  Deferred
  `setTimeout(handleGameEnd …)` calls are modelled as explicit pending
  tasks carrying the `data` value captured by the scheduled closure.
* `src/components/HiddenImage.tsx`: `generateTiles` and the revealed-id
  set.  JavaScript `Array.prototype.sort` with the randomized (hence
  inconsistent) comparator yields an implementation-defined permutation;
  it is modelled as an insertion sort driven by an oracle of comparison
  outcomes, so every sequence of random draws corresponds to some oracle.
  `Math.sqrt` is modelled by `Real.sqrt`.
* `src/services/audioService.ts`: `generateSVGPostcard`, with the
  `Math.random()` draws made explicit as a stream `ℕ → ℚ` and the JS
  number-to-string conversion modelled exactly on integers (the only
  case the proofs evaluate) and by finite decimal expansion otherwise.
  `btoa(unescape(encodeURIComponent(s)))` is the base64 encoding of the
  UTF-8 bytes of `s`, implemented as such.
-/

/-- The GameStatus enum from the types module. -/
inductive GameStatus where
  | IDLE
  | LOADING
  | PLAYING
  | WON
  | LOST
  | ERROR
deriving DecidableEq, Repr

/-- The GameData interface from the types module. -/
structure GameData where
  word : String
  hint : String
  imageSrc : String
deriving DecidableEq, Repr

/-- Configuration constant MAX_ERRORS. -/
def MAX_ERRORS : ℕ := 6

/-- Configuration constant GRID_SIZE (5x5 grid for the image). -/
def GRID_SIZE : ℕ := 5

/-- The `'WON' | 'LOST'` result literal type used by `handleGameEnd` and
`generateSVGPostcard`. -/
inductive GameResult where
  | WON
  | LOST
deriving DecidableEq, Repr

/-- The `'idle' | 'correct' | 'wrong'` animation state union in `App.tsx`. -/
inductive AnimState where
  | idle
  | correct
  | wrong
deriving DecidableEq, Repr

/-! ### JS string helpers (number printing, UTF-8, base64) -/

/-- Decimal digits of the fractional part `q` (with `0 ≤ q < 1`), up to the
given fuel; stops early when the remainder is zero, so integers print with no
fractional digits (JS `Number` printing behaviour on the exact cases). -/
def fracDigits : ℕ → ℚ → List Char
  | 0, _ => []
  | fuel + 1, q =>
    if q = 0 then []
    else
      let q10 := q * 10
      let d := (Int.toNat ⌊q10⌋) % 10
      Char.ofNat (48 + d) :: fracDigits fuel (q10 - ⌊q10⌋)

/-- Model of JS template-literal number printing for the rational-valued
model of `Math.random()` arithmetic: exact on integers (`400` prints as
`"400"`), and a finite decimal expansion (17 fractional digits, JS double
precision) otherwise. -/
def jsNum (q : ℚ) : String :=
  if q.den = 1 then toString q.num
  else (if q < 0 then "-" else "") ++ toString ⌊|q|⌋ ++ "." ++
    String.mk (fracDigits 17 (|q| - ⌊|q|⌋))

/-- UTF-8 encoding of one character, as byte values. -/
def charUtf8 (c : Char) : List ℕ :=
  let n := c.toNat
  if n < 128 then [n]
  else if n < 2048 then [192 + n / 64, 128 + n % 64]
  else if n < 65536 then [224 + n / 4096, 128 + n / 64 % 64, 128 + n % 64]
  else [240 + n / 262144, 128 + n / 4096 % 64, 128 + n / 64 % 64, 128 + n % 64]

/-- UTF-8 bytes of a string: the byte sequence produced by
`unescape(encodeURIComponent(s))` read as Latin-1 character codes. -/
def utf8Bytes (s : String) : List ℕ :=
  s.data.flatMap charUtf8

/-- The base64 alphabet. -/
def base64Chars : List Char :=
  "ABCDEFGHIJKLMNOPQRSTUVWXYZabcdefghijklmnopqrstuvwxyz0123456789+/".data

/-- Look up a 6-bit value in the base64 alphabet. -/
def b64c (n : ℕ) : Char :=
  base64Chars.getD n '?'

/-- Base64 encoding of a byte list (the behaviour of `btoa` on a string of
character codes below 256). -/
def b64encode : List ℕ → List Char
  | [] => []
  | [a] => [b64c (a / 4), b64c (a % 4 * 16), '=', '=']
  | [a, b] => [b64c (a / 4), b64c (a % 4 * 16 + b / 16), b64c (b % 16 * 4), '=']
  | a :: b :: c :: rest =>
    b64c (a / 4) :: b64c (a % 4 * 16 + b / 16) :: b64c (b % 16 * 4 + c / 64) ::
      b64c (c % 64) :: b64encode rest

/-- Model of `btoa(unescape(encodeURIComponent(s)))`: base64 of the UTF-8 bytes. -/
def btoaUtf8 (s : String) : String :=
  String.mk (b64encode (utf8Bytes s))

/-! ### generateSVGPostcard (src/services/audioService.ts)

The `Math.random()` draws are made explicit as a stream `r : ℕ → ℚ` of
values (the browser draws in `[0,1)`), consumed left to right exactly in
the order the source draws them: confetti rectangle `i` uses draws
`4*i .. 4*i+3` (x, y, colour index, rotation), rain line `i` uses draws
`2*i, 2*i+1` (x, y). -/

/-- One sun-ray line of the victory postcard (index `i` of 12). -/
def sunRay (i : ℕ) : String :=
  "<line x1=\"0\" y1=\"0\" x2=\"0\" y2=\"-600\" transform=\"rotate(" ++
    jsNum ((i : ℚ) * 30) ++ ")\" />"

/-- The confetti colour array of the victory postcard. -/
def confettiColors : List String :=
  ["#FF0000", "#00FF00", "#0000FF", "#FFFF00", "#FF00FF"]

/-- One confetti rectangle of the victory postcard, consuming draws
`4*i .. 4*i+3` of the random stream. -/
def confettiRect (r : ℕ → ℚ) (i : ℕ) : String :=
  let x := r (4 * i) * 800
  let y := r (4 * i + 1) * 450
  let color := confettiColors.getD (Int.toNat ⌊r (4 * i + 2) * 5⌋) "undefined"
  "<rect x=\"" ++ jsNum x ++ "\" y=\"" ++ jsNum y ++
    "\" width=\"8\" height=\"8\" fill=\"" ++ color ++
    "\" transform=\"rotate(" ++ jsNum (r (4 * i + 3) * 360) ++ " " ++
    jsNum x ++ " " ++ jsNum y ++ ")\" />"

/-- One rain line of the defeat postcard, consuming draws `2*i, 2*i+1`. -/
def rainLine (r : ℕ → ℚ) (i : ℕ) : String :=
  let x := r (2 * i) * 800
  let y := r (2 * i + 1) * 450
  "<line x1=\"" ++ jsNum x ++ "\" y1=\"" ++ jsNum y ++ "\" x2=\"" ++
    jsNum (x - 10) ++ "\" y2=\"" ++ jsNum (y + 20) ++ "\" />"

/-- The template-literal content of the victory (`'WON'`) postcard. -/
def wonContent (r : ℕ → ℚ) (word : String) : String :=
  "\n      <defs>\n        <linearGradient id=\"sky\" x1=\"0%\" y1=\"0%\" x2=\"0%\" y2=\"100%\">\n          <stop offset=\"0%\" stop-color=\"#4FB6FF\" />\n          <stop offset=\"50%\" stop-color=\"#87CEEB\" />\n          <stop offset=\"100%\" stop-color=\"#E0F7FA\" />\n        </linearGradient>\n        <radialGradient id=\"sun\" cx=\"50%\" cy=\"100%\" r=\"50%\">\n           <stop offset=\"0%\" stop-color=\"#FFD700\" />\n           <stop offset=\"100%\" stop-color=\"#FFA500\" stop-opacity=\"0\" />\n        </radialGradient>\n      </defs>\n      \n      <!-- Background -->\n      <rect width=\"100%\" height=\"100%\" fill=\"url(#sky)\" />\n      <circle cx=\"400\" cy=\"450\" r=\"300\" fill=\"url(#sun)\" opacity=\"0.6\" />\n      \n      <!-- Sun Rays -->\n      <g stroke=\"#FFF\" stroke-width=\"40\" opacity=\"0.2\" transform=\"translate(400,450)\">\n         " ++
  String.join ((List.range 12).map sunRay) ++
  "\n      </g>\n\n      <!-- Confetti -->\n      " ++
  String.join ((List.range 30).map (confettiRect r)) ++
  "\n\n      <!-- Badge Icon (Simplified) -->\n      <g transform=\"translate(680, 50) scale(0.8)\">\n        <path d=\"M50,0 L61,35 L98,35 L68,57 L79,93 L50,70 L21,93 L32,57 L2,35 L39,35 Z\" fill=\"#FFD700\" stroke=\"#B8860B\" stroke-width=\"3\" />\n      </g>\n\n      <!-- Text -->\n      <text x=\"400\" y=\"150\" dominant-baseline=\"middle\" text-anchor=\"middle\" font-family=\"serif\" font-weight=\"900\" font-size=\"70\" fill=\"#E65100\" stroke=\"#FFF\" stroke-width=\"4\" filter=\"drop-shadow(3px 3px 2px rgba(0,0,0,0.3))\">ENHORABONA!</text>\n      \n      <text x=\"400\" y=\"240\" dominant-baseline=\"middle\" text-anchor=\"middle\" font-family=\"sans-serif\" font-weight=\"bold\" font-size=\"30\" fill=\"#5D4037\">HAS SALVAT EL VAQUER!</text>\n\n      <rect x=\"200\" y=\"290\" width=\"400\" height=\"100\" rx=\"10\" fill=\"#FFF\" stroke=\"#8D6E63\" stroke-width=\"4\" />\n      <text x=\"400\" y=\"320\" dominant-baseline=\"middle\" text-anchor=\"middle\" font-family=\"sans-serif\" font-size=\"20\" fill=\"#8D6E63\">LA PARAULA ERA:</text>\n      <text x=\"400\" y=\"360\" dominant-baseline=\"middle\" text-anchor=\"middle\" font-family=\"monospace\" font-weight=\"bold\" font-size=\"45\" fill=\"#3E2723\" letter-spacing=\"4\">" ++
  word ++ "</text>\n    "

/-- The template-literal content of the defeat (`'LOST'`) postcard. -/
def lostContent (r : ℕ → ℚ) (word : String) : String :=
  "\n      <defs>\n        <linearGradient id=\"storm\" x1=\"0%\" y1=\"0%\" x2=\"0%\" y2=\"100%\">\n          <stop offset=\"0%\" stop-color=\"#2c3e50\" />\n          <stop offset=\"100%\" stop-color=\"#000000\" />\n        </linearGradient>\n      </defs>\n      \n      <!-- Background -->\n      <rect width=\"100%\" height=\"100%\" fill=\"url(#storm)\" />\n      \n      <!-- Rain -->\n      <g stroke=\"#7F8C8D\" stroke-width=\"2\" opacity=\"0.4\">\n         " ++
  String.join ((List.range 60).map (rainLine r)) ++
  "\n      </g>\n      \n      <!-- Rope Noose (Symbolic) -->\n      <path d=\"M700,0 L700,150\" stroke=\"#8B4513\" stroke-width=\"8\" />\n      <circle cx=\"700\" cy=\"180\" r=\"30\" stroke=\"#8B4513\" stroke-width=\"8\" fill=\"none\" />\n\n      <!-- Text -->\n      <text x=\"400\" y=\"150\" dominant-baseline=\"middle\" text-anchor=\"middle\" font-family=\"serif\" font-weight=\"900\" font-size=\"80\" fill=\"#C0392B\" stroke=\"#FFF\" stroke-width=\"2\" filter=\"drop-shadow(4px 4px 0px #000)\">GAME OVER</text>\n      \n      <text x=\"400\" y=\"240\" dominant-baseline=\"middle\" text-anchor=\"middle\" font-family=\"sans-serif\" font-weight=\"bold\" font-size=\"30\" fill=\"#BDC3C7\">S\x27HA ACABAT EL TEMPS...</text>\n\n      <rect x=\"200\" y=\"290\" width=\"400\" height=\"100\" rx=\"10\" fill=\"#34495E\" stroke=\"#2C3E50\" stroke-width=\"4\" />\n      <text x=\"400\" y=\"320\" dominant-baseline=\"middle\" text-anchor=\"middle\" font-family=\"sans-serif\" font-size=\"20\" fill=\"#BDC3C7\">ERA:</text>\n      <text x=\"400\" y=\"360\" dominant-baseline=\"middle\" text-anchor=\"middle\" font-family=\"monospace\" font-weight=\"bold\" font-size=\"45\" fill=\"#ECF0F1\" letter-spacing=\"4\">" ++
  word ++ "</text>\n    "

/-- Embedding of `generateSVGPostcard` from `src/services/audioService.ts`,
with the `Math.random()` draws supplied as the stream `r`. -/
def generateSVGPostcard (result : GameResult) (word : String) (r : ℕ → ℚ) :
    String :=
  let width : ℕ := 800
  let height : ℕ := 450
  let content :=
    match result with
    | GameResult.WON => wonContent r word
    | GameResult.LOST => lostContent r word
  let svg := "<svg xmlns=\"http://www.w3.org/2000/svg\" width=\"" ++
    toString width ++ "\" height=\"" ++ toString height ++
    "\" viewBox=\"0 0 " ++ toString width ++ " " ++ toString height ++
    "\">" ++ content ++ "</svg>"
  "data:image/svg+xml;base64," ++ btoaUtf8 svg

/-! ### The game state machine (src/App.tsx)

The React `useState` fields of the `App` component are collected into an
`AppState` record.  A `setTimeout(() => handleGameEnd(result), 1000)` call
is modelled as a pending `GameTask.endTask captured result`, where
`captured` is the `data` value the scheduled closure captured at the
render in which it was created (the source has no `clearTimeout` and no
session-generation token, so pending tasks survive a session reset and
fire with their captured `data`). -/

/-- The state fields of the `App` component. -/
structure AppState where
  status : GameStatus
  data : Option GameData
  guessedLetters : List Char
  wrongCount : ℕ
  totalTurns : ℕ
  animState : AnimState
  finalImageUrl : Option String
  showHint : Bool
  errorMessage : String
deriving DecidableEq, Repr

/-- A deferred `handleGameEnd` call scheduled by `setTimeout`, carrying the
`data` value captured by the closure. -/
inductive GameTask where
  | endTask (captured : Option GameData) (result : GameResult)
deriving DecidableEq, Repr

/-- Embedding of `handleGuess` from `src/App.tsx`: the immediate state
update of one guess, together with the deferred `handleGameEnd` task it
schedules, if any.  (The 800 ms `setAnimState('idle')` reset timers touch
only `animState` and are not modelled as tasks.) -/
def handleGuess (s : AppState) (letter : Char) : AppState × Option GameTask :=
  if s.status ≠ GameStatus.PLAYING ∨ letter ∈ s.guessedLetters ∨ s.data = none
  then (s, none)
  else
    match s.data with
    | none => (s, none)
    | some d =>
      let newGuessed := s.guessedLetters ++ [letter]
      let s1 := { s with guessedLetters := newGuessed,
                         totalTurns := s.totalTurns + 1 }
      if letter ∈ d.word.data then
        let s2 := { s1 with animState := AnimState.correct }
        if ∀ ch ∈ d.word.data, ch ∈ newGuessed then
          (s2, some (GameTask.endTask s.data GameResult.WON))
        else (s2, none)
      else
        let newWrong := s.wrongCount + 1
        let s2 := { s1 with wrongCount := newWrong,
                            animState := AnimState.wrong }
        if MAX_ERRORS ≤ newWrong then
          (s2, some (GameTask.endTask s.data GameResult.LOST))
        else (s2, none)

/-- Embedding of `handleGameEnd` from `src/App.tsx`, applied when its
deferred timer fires: `captured` is the `data` value the closure captured,
`rand` supplies the `Math.random()` draws of `generateSVGPostcard`. -/
def handleGameEnd (captured : Option GameData) (result : GameResult)
    (rand : ℕ → ℚ) (s : AppState) : AppState :=
  match captured with
  | none => s
  | some d =>
    { s with
      status := match result with
        | GameResult.WON => GameStatus.WON
        | GameResult.LOST => GameStatus.LOST,
      finalImageUrl := some (generateSVGPostcard result d.word rand) }

/-- The synchronous reset prefix of `startGame` from `src/App.tsx` (the
state writes before the first `await`). -/
def startGameReset (s : AppState) : AppState :=
  { s with status := GameStatus.LOADING,
           guessedLetters := [],
           wrongCount := 0,
           totalTurns := 0,
           animState := AnimState.idle,
           data := none,
           finalImageUrl := none,
           showHint := false,
           errorMessage := "" }

/-! JS `String.prototype.includes` over character lists. -/

/-- Whether `pat` is a leading piece of the first list. -/
def startsList : List Char → List Char → Bool
  | _, [] => true
  | [], _ :: _ => false
  | a :: as, b :: bs => a = b && startsList as bs

/-- Whether `pat` occurs contiguously somewhere in the list. -/
def containsList (pat : List Char) : List Char → Bool
  | [] => startsList [] pat
  | a :: t => startsList (a :: t) pat || containsList pat t

/-- Model of JS `s.includes(sub)`. -/
def jsIncludes (s sub : String) : Bool :=
  containsList sub.data s.data

/-- The message classification of the `catch` branch of `startGame`: the
raw thrown value is `some m` when it is an `Error` (whose `.message` is
`m`) or a string `m`, and `none` otherwise. -/
def classifyErrorMsg (error : Option String) : String :=
  let msg := match error with
    | some m => m
    | none => "Error de connexió."
  if jsIncludes msg "permission denied" || jsIncludes msg "403" ||
      jsIncludes msg "API_KEY" then
    "Error de Permisos: La clau API (API_KEY) no està configurada o està restringida en aquest dispositiu."
  else if jsIncludes msg "429" then
    "Quota excedida: Torna-ho a provar en uns minuts."
  else msg

/-- The `catch` branch of `startGame`: classify the failure message and
transition to `ERROR`. -/
def startGameFailure (error : Option String) (s : AppState) : AppState :=
  { s with errorMessage := classifyErrorMsg error,
           status := GameStatus.ERROR }

/-- Model of JS `toUpperCase` on the characters the game handles (ASCII
letters and the Catalan c-cedilla). -/
def jsToUpperChar (c : Char) : Char :=
  if 'a' ≤ c ∧ c ≤ 'z' then Char.ofNat (c.toNat - 32)
  else if c = 'ç' then 'Ç'
  else c

/-- Model of JS `toUpperCase` on strings. -/
def jsToUpperStr (s : String) : String :=
  String.mk (s.data.map jsToUpperChar)

/-- The fixed guess alphabet `"ABCÇDEFGHIJKLMNOPQRSTUVWXYZ".split("")` of
`src/App.tsx`, as characters. -/
def ALPHABET : List Char :=
  "ABCÇDEFGHIJKLMNOPQRSTUVWXYZ".data

/-- The success continuation of `startGame`: store the acquired content
(word upper-cased, as in the source) and transition to `PLAYING`. -/
def sessionReady (word hint imageSrc : String) (s : AppState) : AppState :=
  { s with data := some { word := jsToUpperStr word,
                          hint := hint,
                          imageSrc := imageSrc },
           status := GameStatus.PLAYING }

/-- The component state together with the deferred `handleGameEnd` timers
currently pending (in scheduling order). -/
structure World where
  app : AppState
  pending : List GameTask
deriving DecidableEq, Repr

/-- The discrete events driving the component: a guess (button click), a
raw keydown, the firing of the `i`-th pending timer, the synchronous reset
prefix of `startGame`, and the success / failure completions of the
content acquisition. -/
inductive Ev where
  | guess (letter : Char)
  | key (k : String)
  | fire (i : ℕ)
  | reset
  | ready (word hint imageSrc : String)
  | fail (err : Option String)

/-- Apply `handleGuess` and append the task it schedules, if any. -/
def applyGuess (w : World) (letter : Char) : World :=
  let r := handleGuess w.app letter
  { app := r.1, pending := w.pending ++ r.2.toList }

/-- One event step.  `handleKeyDown` upper-cases `e.key` and forwards it to
`handleGuess` only when it is a letter of `ALPHABET` (the source compares
the upper-cased key against an array of one-character strings, which a
multi-character key name such as `"Enter"` never matches).  Firing a timer
consumes it; a session reset does not cancel pending timers (the source
never calls `clearTimeout`). -/
def stepW (rand : ℕ → ℚ) (w : World) : Ev → World
  | Ev.guess c => applyGuess w c
  | Ev.key k =>
    match (jsToUpperStr k).data with
    | [c] => if c ∈ ALPHABET then applyGuess w c else w
    | _ => w
  | Ev.fire i =>
    match w.pending.get? i with
    | none => w
    | some (GameTask.endTask cap res) =>
      { app := handleGameEnd cap res rand w.app,
        pending := w.pending.eraseIdx i }
  | Ev.reset => { app := startGameReset w.app, pending := w.pending }
  | Ev.ready word hint img =>
    { app := sessionReady word hint img w.app, pending := w.pending }
  | Ev.fail err =>
    { app := startGameFailure err w.app, pending := w.pending }

/-- Run a list of events. -/
def runW (rand : ℕ → ℚ) (w : World) (evs : List Ev) : World :=
  evs.foldl (stepW rand) w

/-- The initial `useState` values of the component. -/
def initState : AppState :=
  { status := GameStatus.IDLE,
    data := none,
    guessedLetters := [],
    wrongCount := 0,
    totalTurns := 0,
    animState := AnimState.idle,
    finalImageUrl := none,
    showHint := false,
    errorMessage := "" }

/-- A freshly started session with content `d` (already upper-case) and no
pending timers: the state right after a successful `startGame` on a fresh
mount. -/
def freshSession (d : GameData) : World :=
  { app := { startGameReset initState with data := some d,
                                           status := GameStatus.PLAYING },
    pending := [] }

/-! ### Tile reveal scheduler (src/components/HiddenImage.tsx)

The `Tile` interface stores the Euclidean distance from the grid center,
a JS float; it is modelled as a real number (`Math.sqrt` as `Real.sqrt`).
`generateTiles` sorts the grid with `Array.prototype.sort` under a
comparator that adds fresh random noise on every comparison; such an
inconsistent comparator makes the resulting order implementation-defined,
but ECMAScript still guarantees a permutation of the elements.  The sort
is modelled as an insertion sort whose comparison outcomes are supplied by
an oracle `o : ℕ → Bool` (the `n`-th comparison's result, i.e. the sign of
`scoreB - scoreA` for that comparison's two fresh draws); quantifying over
all oracles covers every sequence of random draws.  The code fixes the
grid size to `GRID_SIZE = 5`; the definitions take the size as a
parameter `n` (with center `n / 2`, the code's `Math.floor(GRID_SIZE/2)`)
so the spec's odd-`N` generalization is statable. -/

/-- The Tile interface from the types module. -/
structure Tile where
  id : ℕ
  row : ℕ
  col : ℕ
  distanceFromCenter : ℝ
  revealed : Bool

/-- One tile of the grid built by `generateTiles`: ids are assigned in
row-major order (`id++` over the nested loops), and the distance is the
Euclidean distance from the center cell. -/
noncomputable def mkTile (n r c : ℕ) : Tile :=
  { id := r * n + c,
    row := r,
    col := c,
    distanceFromCenter :=
      Real.sqrt (((r : ℝ) - ((n / 2 : ℕ) : ℝ)) ^ 2 +
        ((c : ℝ) - ((n / 2 : ℕ) : ℝ)) ^ 2),
    revealed := false }

/-- The tile array built by the nested loops of `generateTiles`, before
sorting. -/
noncomputable def initialTiles (n : ℕ) : List Tile :=
  (List.range n).flatMap (fun r => (List.range n).map (fun c => mkTile n r c))

/-- Insert one element under the comparison oracle, threading the index of
the next comparison; `o k = true` means the `k`-th comparison put the
inserted element first. -/
def insertOracle (o : ℕ → Bool) : ℕ → Tile → List Tile → List Tile × ℕ
  | k, a, [] => ([a], k)
  | k, a, b :: bs =>
    if o k then (a :: b :: bs, k + 1)
    else
      let r := insertOracle o (k + 1) a bs
      (b :: r.1, r.2)

/-- Insertion sort under the comparison oracle. -/
def sortOracle (o : ℕ → Bool) : ℕ → List Tile → List Tile × ℕ
  | k, [] => ([], k)
  | k, a :: as =>
    let r := sortOracle o k as
    insertOracle o r.2 a r.1

/-- Embedding of `generateTiles`, generalized over the grid size. -/
noncomputable def generateTilesN (n : ℕ) (o : ℕ → Bool) : List Tile :=
  (sortOracle o 0 (initialTiles n)).1

/-- Embedding of `generateTiles` from `src/components/HiddenImage.tsx`
(grid size fixed to `GRID_SIZE` as in the source). -/
noncomputable def generateTiles (o : ℕ → Bool) : List Tile :=
  generateTilesN GRID_SIZE o

/-- Embedding of the `revealedIds` memo of the `HiddenImage` component:
`new Set(sortedTiles.slice(0, revealedCount).map(t => t.id))`.  This is
the `revealedSet(revealedCount)` of the specification. -/
def revealedIds (sortedTiles : List Tile) (revealedCount : ℕ) : Finset ℕ :=
  ((sortedTiles.take revealedCount).map Tile.id).toFinset

/-! ### Lemmas about the tile scheduler -/

/-- Oracle insertion is a permutation of cons. -/
theorem insertOracle_perm (o : ℕ → Bool) (k : ℕ) (a : Tile) (l : List Tile) :
    (insertOracle o k a l).1.Perm (a :: l) := by
  induction l generalizing k with
  | nil => simp [insertOracle]
  | cons b bs ih =>
    by_cases h : o k
    · simp [insertOracle, h]
    · simp only [insertOracle, h, Bool.false_eq_true, if_false]
      exact ((ih (k + 1)).cons b).trans (List.Perm.swap a b bs)

/-- Oracle sorting permutes its input, whatever the comparison outcomes. -/
theorem sortOracle_perm (o : ℕ → Bool) (k : ℕ) (l : List Tile) :
    (sortOracle o k l).1.Perm l := by
  induction l generalizing k with
  | nil => simp [sortOracle]
  | cons a as ih =>
    simp only [sortOracle]
    exact (insertOracle_perm o _ a _).trans ((ih k).cons a)

/-- Row-major id assignment enumerates `0 .. a*n-1`. -/
theorem range_flatMap_ids (a n : ℕ) :
    (List.range a).flatMap (fun r => (List.range n).map (fun c => r * n + c)) =
      List.range (a * n) := by
  induction a with
  | zero => simp
  | succ a ih =>
    rw [List.range_succ, List.flatMap_append, ih, List.flatMap_singleton,
      Nat.succ_mul, List.range_add]

/-- The ids of the unsorted grid are exactly `0 .. n*n-1` in order. -/
theorem initialTiles_ids (n : ℕ) :
    (initialTiles n).map Tile.id = List.range (n * n) := by
  rw [initialTiles, List.map_flatMap]
  simp only [List.map_map]
  exact range_flatMap_ids n n

/-- The unsorted grid has `n * n` tiles. -/
theorem initialTiles_length (n : ℕ) : (initialTiles n).length = n * n := by
  have h := congrArg List.length (initialTiles_ids n)
  simpa using h

/-- Every member of the unsorted grid is some `mkTile n r c`. -/
theorem mem_initialTiles {n : ℕ} {t : Tile} (h : t ∈ initialTiles n) :
    ∃ r c, r < n ∧ c < n ∧ t = mkTile n r c := by
  simp only [initialTiles, List.mem_flatMap, List.mem_map, List.mem_range] at h
  obtain ⟨r, hr, c, hc, rfl⟩ := h
  exact ⟨r, c, hr, hc, rfl⟩

/-- C10: every call to `generateTiles` returns a list of exactly 25 tiles
whose ids are a permutation of `0..24` — no id dropped or duplicated —
regardless of the outcomes the noisy randomized comparator produces, and
each tile's `distanceFromCenter` is the Euclidean distance
`sqrt((row-2)^2 + (col-2)^2)` from the center cell `(2,2)`. -/
theorem claim_C10_generateTiles_permutation (o : ℕ → Bool) :
    (generateTiles o).length = 25 ∧
    ((generateTiles o).map Tile.id).Perm (List.range 25) ∧
    ∀ t ∈ generateTiles o,
      t.distanceFromCenter =
        Real.sqrt (((t.row : ℝ) - 2) ^ 2 + ((t.col : ℝ) - 2) ^ 2) := by
  have hperm : (generateTiles o).Perm (initialTiles GRID_SIZE) :=
    sortOracle_perm o 0 _
  refine ⟨?_, ?_, ?_⟩
  · rw [hperm.length_eq, initialTiles_length]
    decide
  · have h := hperm.map Tile.id
    rw [initialTiles_ids] at h
    exact h
  · intro t ht
    obtain ⟨r, c, hr, hc, rfl⟩ := mem_initialTiles (hperm.subset ht)
    norm_num [mkTile, GRID_SIZE]

/-- Witness for C10 at a concrete comparison oracle. -/
theorem claim_C10_witness :
    ((generateTiles (fun _ => true)).map Tile.id).Perm (List.range 25) :=
  (claim_C10_generateTiles_permutation (fun _ => true)).2.1

/-- C4: for every grid size and every fixed generated tile order (i.e.
every comparison oracle), `revealedSet(0)` is empty, `revealedSet(n*n)` is
the set of all `n*n` cell ids, and `revealedSet` is monotone under subset
inclusion in the reveal count: no revealed cell ever becomes hidden. -/
theorem claim_C4_revealedSet_monotone (n : ℕ) (o : ℕ → Bool) (c c' : ℕ)
    (h : c ≤ c') :
    revealedIds (generateTilesN n o) 0 = ∅ ∧
    revealedIds (generateTilesN n o) (n * n) = Finset.range (n * n) ∧
    revealedIds (generateTilesN n o) c ⊆ revealedIds (generateTilesN n o) c' := by
  have hperm : (generateTilesN n o).Perm (initialTiles n) := sortOracle_perm o 0 _
  refine ⟨?_, ?_, ?_⟩
  · simp [revealedIds]
  · have hlen : (generateTilesN n o).length = n * n := by
      rw [hperm.length_eq, initialTiles_length]
    have hfin : ((generateTilesN n o).map Tile.id).toFinset =
        (List.range (n * n)).toFinset := by
      refine List.toFinset_eq_of_perm _ _ ?_
      rw [← initialTiles_ids n]
      exact hperm.map _
    have htake : List.take (n * n) (generateTilesN n o) = generateTilesN n o := by
      rw [← hlen]
      exact List.take_length _
    rw [revealedIds, htake, hfin]
    exact Finset.ext (by simp)
  · intro x hx
    simp only [revealedIds, List.mem_toFinset, List.mem_map] at hx ⊢
    obtain ⟨t, ht, rfl⟩ := hx
    refine ⟨t, ?_, rfl⟩
    have heq : List.take c (generateTilesN n o) =
        List.take c (List.take c' (generateTilesN n o)) := by
      rw [List.take_take, inf_of_le_left h]
    rw [heq] at ht
    exact List.take_subset c _ ht

/-- Witness for C4 at grid size 5, a concrete oracle and counts 3 ≤ 7. -/
theorem claim_C4_witness :
    3 ≤ 7 ∧
    revealedIds (generateTilesN 5 (fun _ => true)) 3 ⊆
      revealedIds (generateTilesN 5 (fun _ => true)) 7 :=
  ⟨by decide, (claim_C4_revealedSet_monotone 5 (fun _ => true) 3 7 (by decide)).2.2⟩

/-! ### Equation lemmas for handleGuess -/

/-- Failed precondition: `handleGuess` returns the state unchanged. -/
theorem handleGuess_eq_noop (s : AppState) (c : Char)
    (h : s.status ≠ GameStatus.PLAYING ∨ c ∈ s.guessedLetters ∨ s.data = none) :
    handleGuess s c = (s, none) := by
  rw [handleGuess, if_pos h]

/-- Accepted correct guess that does not yet complete the word. -/
theorem handleGuess_eq_correct (s : AppState) (c : Char) (d : GameData)
    (hst : s.status = GameStatus.PLAYING) (hmem : c ∉ s.guessedLetters)
    (hd : s.data = some d) (hin : c ∈ d.word.data)
    (hwin : ¬ ∀ ch ∈ d.word.data, ch ∈ s.guessedLetters ++ [c]) :
    handleGuess s c =
      ({ s with guessedLetters := s.guessedLetters ++ [c],
                totalTurns := s.totalTurns + 1,
                animState := AnimState.correct }, none) := by
  simp only [handleGuess, hd]
  rw [if_neg (by simp [hst, hmem]), if_pos hin, if_neg hwin]

/-- Accepted correct guess that completes the word: schedules the deferred
`handleGameEnd('WON')` with the current `data` captured. -/
theorem handleGuess_eq_win (s : AppState) (c : Char) (d : GameData)
    (hst : s.status = GameStatus.PLAYING) (hmem : c ∉ s.guessedLetters)
    (hd : s.data = some d) (hin : c ∈ d.word.data)
    (hwin : ∀ ch ∈ d.word.data, ch ∈ s.guessedLetters ++ [c]) :
    handleGuess s c =
      ({ s with guessedLetters := s.guessedLetters ++ [c],
                totalTurns := s.totalTurns + 1,
                animState := AnimState.correct },
        some (GameTask.endTask (some d) GameResult.WON)) := by
  simp only [handleGuess, hd]
  rw [if_neg (by simp [hst, hmem]), if_pos hin, if_pos hwin]

/-- Accepted wrong guess below the error limit. -/
theorem handleGuess_eq_wrong (s : AppState) (c : Char) (d : GameData)
    (hst : s.status = GameStatus.PLAYING) (hmem : c ∉ s.guessedLetters)
    (hd : s.data = some d) (hin : c ∉ d.word.data)
    (hlim : ¬ MAX_ERRORS ≤ s.wrongCount + 1) :
    handleGuess s c =
      ({ s with guessedLetters := s.guessedLetters ++ [c],
                totalTurns := s.totalTurns + 1,
                wrongCount := s.wrongCount + 1,
                animState := AnimState.wrong }, none) := by
  simp only [handleGuess, hd]
  rw [if_neg (by simp [hst, hmem]), if_neg hin, if_neg hlim]

/-- Accepted wrong guess reaching the error limit: schedules the deferred
`handleGameEnd('LOST')` with the current `data` captured. -/
theorem handleGuess_eq_lost (s : AppState) (c : Char) (d : GameData)
    (hst : s.status = GameStatus.PLAYING) (hmem : c ∉ s.guessedLetters)
    (hd : s.data = some d) (hin : c ∉ d.word.data)
    (hlim : MAX_ERRORS ≤ s.wrongCount + 1) :
    handleGuess s c =
      ({ s with guessedLetters := s.guessedLetters ++ [c],
                totalTurns := s.totalTurns + 1,
                wrongCount := s.wrongCount + 1,
                animState := AnimState.wrong },
        some (GameTask.endTask (some d) GameResult.LOST)) := by
  simp only [handleGuess, hd]
  rw [if_neg (by simp [hst, hmem]), if_neg hin, if_pos hlim]

/-- Every accepted guess appends the letter to `guessedLetters`. -/
theorem handleGuess_accepted_guessedLetters (s : AppState) (c : Char)
    (d : GameData) (hst : s.status = GameStatus.PLAYING)
    (hmem : c ∉ s.guessedLetters) (hd : s.data = some d) :
    (handleGuess s c).1.guessedLetters = s.guessedLetters ++ [c] := by
  by_cases hin : c ∈ d.word.data
  · by_cases hwin : ∀ ch ∈ d.word.data, ch ∈ s.guessedLetters ++ [c]
    · rw [handleGuess_eq_win s c d hst hmem hd hin hwin]
    · rw [handleGuess_eq_correct s c d hst hmem hd hin hwin]
  · by_cases hlim : MAX_ERRORS ≤ s.wrongCount + 1
    · rw [handleGuess_eq_lost s c d hst hmem hd hin hlim]
    · rw [handleGuess_eq_wrong s c d hst hmem hd hin hlim]

/-- C5: `handleGuess` is a no-op returning the state unchanged whenever a
precondition fails (status not `PLAYING` — including terminal `WON` /
`LOST` —, letter already guessed, or no data), and consequently submitting
the same letter twice mutates state exactly as submitting it once: the
second call is always a no-op. -/
theorem claim_C5_noop_idempotent :
    (∀ (s : AppState) (c : Char),
      s.status ≠ GameStatus.PLAYING ∨ c ∈ s.guessedLetters ∨ s.data = none →
      handleGuess s c = (s, none)) ∧
    (∀ (s : AppState) (c : Char),
      handleGuess (handleGuess s c).1 c = ((handleGuess s c).1, none)) := by
  refine ⟨fun s c h => handleGuess_eq_noop s c h, fun s c => ?_⟩
  by_cases h : s.status ≠ GameStatus.PLAYING ∨ c ∈ s.guessedLetters ∨
      s.data = none
  · rw [handleGuess_eq_noop s c h]
    exact handleGuess_eq_noop s c h
  · push_neg at h
    obtain ⟨hst, hmem, hdata⟩ := h
    obtain ⟨d, hd⟩ := Option.ne_none_iff_exists'.mp hdata
    refine handleGuess_eq_noop _ _ (Or.inr (Or.inl ?_))
    rw [handleGuess_accepted_guessedLetters s c d hst hmem hd]
    simp

/-- Witness for C5 at a concrete failed precondition. -/
theorem claim_C5_witness :
    (initState.status ≠ GameStatus.PLAYING ∨ 'A' ∈ initState.guessedLetters ∨
      initState.data = none) ∧
    handleGuess initState 'A' = (initState, none) :=
  ⟨by decide, claim_C5_noop_idempotent.1 initState 'A' (by decide)⟩

/-- C1: an accepted correct guess appends the letter to `guessedLetters`;
if every letter of the word is then guessed, the deferred
`handleGameEnd('WON')` is scheduled and its firing sets status `WON`,
otherwise nothing is scheduled and status stays `PLAYING`.  In particular
for word `"GAT"` and guesses G, A, T in order, the status is still
`PLAYING` (with `turnCount = 2`) after the second guess and becomes `WON`
once the third guess's deferred resolution fires. -/
theorem claim_C1_correct_guess_win :
    (∀ (s : AppState) (d : GameData) (c : Char),
      s.status = GameStatus.PLAYING → s.data = some d →
      c ∉ s.guessedLetters → c ∈ d.word.data →
      (handleGuess s c).1.guessedLetters = s.guessedLetters ++ [c] ∧
      ((∀ ch ∈ d.word.data, ch ∈ s.guessedLetters ++ [c]) →
        (handleGuess s c).2 = some (GameTask.endTask (some d) GameResult.WON) ∧
        ∀ rand : ℕ → ℚ,
          (handleGameEnd (some d) GameResult.WON rand
            (handleGuess s c).1).status = GameStatus.WON) ∧
      (¬ (∀ ch ∈ d.word.data, ch ∈ s.guessedLetters ++ [c]) →
        (handleGuess s c).2 = none ∧
        (handleGuess s c).1.status = GameStatus.PLAYING)) ∧
    ((runW (fun _ => 0)
        (freshSession { word := "GAT", hint := "h", imageSrc := "i" })
        [Ev.guess 'G', Ev.guess 'A']).app.status = GameStatus.PLAYING ∧
      (runW (fun _ => 0)
        (freshSession { word := "GAT", hint := "h", imageSrc := "i" })
        [Ev.guess 'G', Ev.guess 'A']).app.guessedLetters = ['G', 'A'] ∧
      (runW (fun _ => 0)
        (freshSession { word := "GAT", hint := "h", imageSrc := "i" })
        [Ev.guess 'G', Ev.guess 'A']).app.totalTurns = 2 ∧
      (runW (fun _ => 0)
        (freshSession { word := "GAT", hint := "h", imageSrc := "i" })
        [Ev.guess 'G', Ev.guess 'A', Ev.guess 'T']).pending =
          [GameTask.endTask (some { word := "GAT", hint := "h", imageSrc := "i" })
            GameResult.WON] ∧
      (runW (fun _ => 0)
        (freshSession { word := "GAT", hint := "h", imageSrc := "i" })
        [Ev.guess 'G', Ev.guess 'A', Ev.guess 'T',
          Ev.fire 0]).app.status = GameStatus.WON) := by
  constructor
  · intro s d c hst hd hmem hin
    refine ⟨handleGuess_accepted_guessedLetters s c d hst hmem hd, ?_, ?_⟩
    · intro hwin
      rw [handleGuess_eq_win s c d hst hmem hd hin hwin]
      exact ⟨rfl, fun rand => rfl⟩
    · intro hwin
      rw [handleGuess_eq_correct s c d hst hmem hd hin hwin]
      exact ⟨rfl, hst⟩
  · refine ⟨by decide, by decide, by decide, by decide, by decide⟩

/-- Witness for C1's general part at a concrete accepted correct guess. -/
theorem claim_C1_witness :
    (handleGuess (freshSession { word := "GAT", hint := "h", imageSrc := "i" }).app
      'G').1.guessedLetters = ['G'] :=
  (claim_C1_correct_guess_win.1
    (freshSession { word := "GAT", hint := "h", imageSrc := "i" }).app
    { word := "GAT", hint := "h", imageSrc := "i" } 'G'
    (by decide) (by decide) (by decide) (by decide)).1

/-- C7: a keydown whose upper-cased character is outside the fixed
alphabet is silently ignored while `PLAYING`: the whole world (hence
`turnCount`, `guessedLetters`, `errorCount` and `status`) is unchanged and
the input does not count as a turn. -/
theorem claim_C7_non_alphabet_ignored (w : World) (rand : ℕ → ℚ) (c : Char)
    (_hplay : w.app.status = GameStatus.PLAYING)
    (h : jsToUpperChar c ∉ ALPHABET) :
    stepW rand w (Ev.key (String.mk [c])) = w ∧
    (stepW rand w (Ev.key (String.mk [c]))).app.totalTurns = w.app.totalTurns ∧
    (stepW rand w (Ev.key (String.mk [c]))).app.guessedLetters =
      w.app.guessedLetters ∧
    (stepW rand w (Ev.key (String.mk [c]))).app.wrongCount = w.app.wrongCount ∧
    (stepW rand w (Ev.key (String.mk [c]))).app.status = w.app.status := by
  have hstep : stepW rand w (Ev.key (String.mk [c])) = w := by
    simp only [stepW, jsToUpperStr, List.map_cons, List.map_nil]
    simp [h]
  exact ⟨hstep, by rw [hstep], by rw [hstep], by rw [hstep], by rw [hstep]⟩

/-- Witness for C7 with the digit key `'3'` on a fresh playing session. -/
theorem claim_C7_witness :
    (freshSession { word := "GAT", hint := "h", imageSrc := "i" }).app.status =
      GameStatus.PLAYING ∧
    jsToUpperChar '3' ∉ ALPHABET ∧
    stepW (fun _ => 0)
        (freshSession { word := "GAT", hint := "h", imageSrc := "i" })
        (Ev.key (String.mk ['3'])) =
      freshSession { word := "GAT", hint := "h", imageSrc := "i" } :=
  ⟨by decide, by decide,
    (claim_C7_non_alphabet_ignored
      (freshSession { word := "GAT", hint := "h", imageSrc := "i" })
      (fun _ => 0) '3' (by decide) (by decide)).1⟩

/-- C8: every modelled content-acquisition failure sets status `ERROR`,
and the displayed message is classified from the raw message first match
wins: a permission / forbidden / API-key indicator yields the permission
message; otherwise a raw message containing "429" yields the quota
message; otherwise the raw message itself is shown. -/
theorem claim_C8_error_classification (s : AppState) (err : Option String) :
    (startGameFailure err s).status = GameStatus.ERROR ∧
    (∀ m, err = some m →
      ((jsIncludes m "permission denied" || jsIncludes m "403" ||
          jsIncludes m "API_KEY") = true →
        (startGameFailure err s).errorMessage =
          "Error de Permisos: La clau API (API_KEY) no està configurada o està restringida en aquest dispositiu.") ∧
      ((jsIncludes m "permission denied" || jsIncludes m "403" ||
          jsIncludes m "API_KEY") = false →
        jsIncludes m "429" = true →
        (startGameFailure err s).errorMessage =
          "Quota excedida: Torna-ho a provar en uns minuts.") ∧
      ((jsIncludes m "permission denied" || jsIncludes m "403" ||
          jsIncludes m "API_KEY") = false →
        jsIncludes m "429" = false →
        (startGameFailure err s).errorMessage = m)) := by
  refine ⟨rfl, ?_⟩
  rintro m rfl
  refine ⟨fun hp => ?_, fun hp hq => ?_, fun hp hq => ?_⟩
  · simp [startGameFailure, classifyErrorMsg, hp]
  · simp [startGameFailure, classifyErrorMsg, hp, hq]
  · simp [startGameFailure, classifyErrorMsg, hp, hq]

/-- Witness for C8: a raw "429" failure yields the quota message and the
`ERROR` status. -/
theorem claim_C8_witness :
    jsIncludes "HTTP error 429" "429" = true ∧
    (startGameFailure (some "HTTP error 429") initState).status =
      GameStatus.ERROR ∧
    (startGameFailure (some "HTTP error 429") initState).errorMessage =
      "Quota excedida: Torna-ho a provar en uns minuts." :=
  ⟨by decide,
    (claim_C8_error_classification initState (some "HTTP error 429")).1,
    ((claim_C8_error_classification initState (some "HTTP error 429")).2 _
      rfl).2.1 (by decide) (by decide)⟩

/-- Unfolding lemma: running a cons of events. -/
theorem runW_cons (rand : ℕ → ℚ) (w : World) (e : Ev) (evs : List Ev) :
    runW rand w (e :: evs) = runW rand (stepW rand w e) evs := rfl

/-- Unfolding lemma: running no events. -/
theorem runW_nil (rand : ℕ → ℚ) (w : World) : runW rand w [] = w := rfl

/-- Invariant of a run of distinct wrong guesses from a `PLAYING` world
with no pending timer: the status stays `PLAYING`, the wrong count grows
by exactly the number of guesses, and the deferred `LOST` resolution is
pending exactly when the count reaches `MAX_ERRORS` on the last guess. -/
theorem runGuesses_wrong_inv (rand : ℕ → ℚ) (d : GameData) :
    ∀ (ls : List Char) (w : World),
      w.app.status = GameStatus.PLAYING →
      w.app.data = some d →
      w.pending = [] →
      ls.Nodup →
      (∀ c ∈ ls, c ∉ d.word.data) →
      (∀ c ∈ ls, c ∉ w.app.guessedLetters) →
      w.app.wrongCount + ls.length ≤ MAX_ERRORS →
      (runW rand w (ls.map Ev.guess)).app.status = GameStatus.PLAYING ∧
      (runW rand w (ls.map Ev.guess)).app.data = some d ∧
      (runW rand w (ls.map Ev.guess)).app.wrongCount =
        w.app.wrongCount + ls.length ∧
      (runW rand w (ls.map Ev.guess)).app.guessedLetters =
        w.app.guessedLetters ++ ls ∧
      (runW rand w (ls.map Ev.guess)).pending =
        (if w.app.wrongCount + ls.length = MAX_ERRORS ∧ ls ≠ [] then
          [GameTask.endTask (some d) GameResult.LOST] else []) := by
  intro ls
  induction ls with
  | nil =>
    intro w hst hd hp _ _ _ _
    simp [runW_nil, hst, hd, hp]
  | cons c cs ih =>
    intro w hst hd hp hnd hword hguessed hbound
    have hcw : c ∉ d.word.data := hword c (List.mem_cons_self c cs)
    have hcg : c ∉ w.app.guessedLetters := hguessed c (List.mem_cons_self c cs)
    rw [List.map_cons, runW_cons]
    by_cases hlim : MAX_ERRORS ≤ w.app.wrongCount + 1
    · have hlen : cs.length = 0 := by
        have hb := hbound
        simp only [List.length_cons] at hb
        omega
      have hcs : cs = [] := List.length_eq_zero.mp hlen
      subst hcs
      have hwc : w.app.wrongCount + 1 = MAX_ERRORS := by
        have hb := hbound
        simp only [List.length_cons] at hb
        omega
      rw [List.map_nil, runW_nil]
      simp only [stepW, applyGuess,
        handleGuess_eq_lost w.app c d hst hcg hd hcw hlim]
      simp [hp, hst, hd, hwc]
    · have hstep : stepW rand w (Ev.guess c) =
          { app := { w.app with
              guessedLetters := w.app.guessedLetters ++ [c],
              totalTurns := w.app.totalTurns + 1,
              wrongCount := w.app.wrongCount + 1,
              animState := AnimState.wrong },
            pending := [] } := by
        simp only [stepW, applyGuess,
          handleGuess_eq_wrong w.app c d hst hcg hd hcw hlim]
        simp [hp]
      rw [hstep]
      have hnd' := List.nodup_cons.mp hnd
      have ihres := ih
        { app := { w.app with
            guessedLetters := w.app.guessedLetters ++ [c],
            totalTurns := w.app.totalTurns + 1,
            wrongCount := w.app.wrongCount + 1,
            animState := AnimState.wrong },
          pending := [] }
        hst hd rfl hnd'.2
        (fun x hx => hword x (List.mem_cons_of_mem c hx))
        (fun x hx => by
          intro hmem
          rcases List.mem_append.mp hmem with hmem | hmem
          · exact hguessed x (List.mem_cons_of_mem c hx) hmem
          · rw [List.mem_singleton] at hmem
            subst hmem
            exact hnd'.1 hx)
        (by
          dsimp only
          simp only [List.length_cons] at hbound
          omega)
      rcases ihres with ⟨h1, h2, h3, h4, h5⟩
      refine ⟨h1, h2, ?_, ?_, ?_⟩
      · rw [h3]
        dsimp only
        simp only [List.length_cons]
        omega
      · rw [h4]
        dsimp only
        simp [List.append_assoc]
      · rw [h5]
        dsimp only
        have hne : (c :: cs) ≠ [] := by simp
        have hlc : (c :: cs).length = cs.length + 1 := rfl
        split_ifs with hA hB hB
        · rfl
        · exfalso
          apply hB
          refine ⟨?_, hne⟩
          rw [hlc]
          omega
        · exfalso
          rcases hB with ⟨hB1, _⟩
          rw [hlc] at hB1
          rcases Nat.eq_zero_or_pos cs.length with hz | hpos
          · have : cs = [] := List.length_eq_zero.mp hz
            rw [hz] at hB1
            omega
          · apply hA
            have : cs ≠ [] := by
              intro hzz
              rw [hzz] at hpos
              simp at hpos
            exact ⟨by omega, this⟩
        · rfl

/-- C2: an accepted wrong guess increments the wrong count by exactly 1;
on a fresh session, after fewer than six distinct wrong guesses the status
is still `PLAYING` with no deferred resolution pending, and after exactly
six the wrong count is `MAX_ERRORS`, the deferred `handleGameEnd('LOST')`
is pending, and its firing sets status `LOST`. -/
theorem claim_C2_wrong_guess_lost (rand : ℕ → ℚ) (d : GameData) :
    (∀ (s : AppState) (c : Char),
      s.status = GameStatus.PLAYING → s.data = some d →
      c ∉ s.guessedLetters → c ∉ d.word.data →
      (handleGuess s c).1.wrongCount = s.wrongCount + 1) ∧
    (∀ ls : List Char, ls.Nodup → (∀ c ∈ ls, c ∉ d.word.data) →
      (ls.length < MAX_ERRORS →
        (runW rand (freshSession d) (ls.map Ev.guess)).app.status =
          GameStatus.PLAYING ∧
        (runW rand (freshSession d) (ls.map Ev.guess)).app.wrongCount =
          ls.length ∧
        (runW rand (freshSession d) (ls.map Ev.guess)).pending = []) ∧
      (ls.length = MAX_ERRORS →
        (runW rand (freshSession d) (ls.map Ev.guess)).app.wrongCount =
          MAX_ERRORS ∧
        (runW rand (freshSession d) (ls.map Ev.guess)).pending =
          [GameTask.endTask (some d) GameResult.LOST] ∧
        ∀ rand' : ℕ → ℚ,
          (stepW rand' (runW rand (freshSession d) (ls.map Ev.guess))
            (Ev.fire 0)).app.status = GameStatus.LOST)) := by
  constructor
  · intro s c hst hd hmem hin
    by_cases hlim : MAX_ERRORS ≤ s.wrongCount + 1
    · rw [handleGuess_eq_lost s c d hst hmem hd hin hlim]
    · rw [handleGuess_eq_wrong s c d hst hmem hd hin hlim]
  · intro ls hnd hword
    constructor
    · intro hlt
      have hres := runGuesses_wrong_inv rand d ls (freshSession d) rfl rfl rfl
        hnd hword (fun c _ => List.not_mem_nil c)
        (by
          show (0 : ℕ) + ls.length ≤ MAX_ERRORS
          omega)
      rcases hres with ⟨h1, _, h3, _, h5⟩
      refine ⟨h1, ?_, ?_⟩
      · rw [h3]
        exact Nat.zero_add _
      · rw [h5]
        have hc : ¬ ((freshSession d).app.wrongCount + ls.length = MAX_ERRORS ∧
            ls ≠ []) := by
          intro hcon
          have h0 : (0 : ℕ) + ls.length = MAX_ERRORS := hcon.1
          omega
        rw [if_neg hc]
    · intro hlen6
      have hres := runGuesses_wrong_inv rand d ls (freshSession d) rfl rfl rfl
        hnd hword (fun c _ => List.not_mem_nil c)
        (by
          show (0 : ℕ) + ls.length ≤ MAX_ERRORS
          omega)
      rcases hres with ⟨h1, h2, h3, h4, h5⟩
      have hne : ls ≠ [] := by
        intro h0
        rw [h0] at hlen6
        simp [MAX_ERRORS] at hlen6
      have hcond : (freshSession d).app.wrongCount + ls.length = MAX_ERRORS ∧
          ls ≠ [] := by
        refine ⟨?_, hne⟩
        show (0 : ℕ) + ls.length = MAX_ERRORS
        omega
      refine ⟨?_, ?_, ?_⟩
      · rw [h3]
        show (0 : ℕ) + ls.length = MAX_ERRORS
        omega
      · rw [h5, if_pos hcond]
      · intro rand'
        have hpend : (runW rand (freshSession d) (ls.map Ev.guess)).pending =
            [GameTask.endTask (some d) GameResult.LOST] := by
          rw [h5, if_pos hcond]
        simp only [stepW, hpend]
        simp [handleGameEnd]

/-- Witness for C2: six distinct wrong guesses against word "Z", then the
deferred resolution fires and the status is `LOST`. -/
theorem claim_C2_witness :
    (['A', 'B', 'C', 'D', 'E', 'F'] : List Char).Nodup ∧
    (stepW (fun _ => 0)
      (runW (fun _ => 0) (freshSession { word := "Z", hint := "h", imageSrc := "i" })
        ((['A', 'B', 'C', 'D', 'E', 'F'] : List Char).map Ev.guess))
      (Ev.fire 0)).app.status = GameStatus.LOST :=
  ⟨by decide,
    (((claim_C2_wrong_guess_lost (fun _ => 0)
          { word := "Z", hint := "h", imageSrc := "i" }).2
        ['A', 'B', 'C', 'D', 'E', 'F'] (by decide) (by decide)).2
      (by decide)).2.2 (fun _ => 0)⟩

/-- Folding string concatenation from any accumulator. -/
theorem foldl_append_str (l : List String) :
    ∀ a : String, List.foldl (fun r s => r ++ s) a l =
      a ++ List.foldl (fun r s => r ++ s) "" l := by
  induction l with
  | nil =>
    intro a
    simp
  | cons s t ih =>
    intro a
    simp only [List.foldl_cons]
    rw [ih (a ++ s), ih ("" ++ s), String.empty_append, String.append_assoc]

/-- Unfolding lemma for `String.join` on a cons. -/
theorem join_cons (s : String) (l : List String) :
    String.join (s :: l) = s ++ String.join l := by
  simp only [String.join, List.foldl_cons]
  rw [foldl_append_str l ("" ++ s), String.empty_append]

/-- Unfolding lemma for `String.join` on nil. -/
theorem join_nil : String.join [] = "" := rfl

/-- UTF-8 encoding distributes over string concatenation. -/
theorem utf8Bytes_append (s t : String) :
    utf8Bytes (s ++ t) = utf8Bytes s ++ utf8Bytes t := by
  simp [utf8Bytes, String.data_append, List.flatMap_append]

/-- Length of a base64 encoding: four output characters per three input
bytes, rounded up. -/
theorem b64encode_length : ∀ l : List ℕ,
    (b64encode l).length = 4 * ((l.length + 2) / 3)
  | [] => by simp [b64encode]
  | [_] => by simp [b64encode]
  | [_, _] => by simp [b64encode]
  | _ :: _ :: _ :: rest => by
    simp only [b64encode, List.length_cons]
    rw [b64encode_length rest]
    omega

/-- Length of the modelled `btoa` data. -/
theorem btoaUtf8_length (s : String) :
    (btoaUtf8 s).length = 4 * (((utf8Bytes s).length + 2) / 3) := by
  have h : (btoaUtf8 s).length = (b64encode (utf8Bytes s)).length := rfl
  rw [h, b64encode_length]

set_option maxRecDepth 100000 in
/-- Counterexample to C9 as stated: two invocations of
`generateSVGPostcard` with the same outcome and word but different random
draws (all draws 0 versus all draws 1/2) return different image
references, because the confetti geometry is sampled from
`Math.random()`. -/
theorem claim_C9_counterexample :
    generateSVGPostcard GameResult.WON "GAT" (fun _ => 0) ≠
      generateSVGPostcard GameResult.WON "GAT" (fun _ => 1 / 2) := by
  have h800a : (0 : ℚ) * 800 = 0 := by norm_num
  have h450a : (0 : ℚ) * 450 = 0 := by norm_num
  have h5a : (0 : ℚ) * 5 = 0 := by norm_num
  have h360a : (0 : ℚ) * 360 = 0 := by norm_num
  have h800b : (1 / 2 : ℚ) * 800 = 400 := by norm_num
  have h450b : (1 / 2 : ℚ) * 450 = 225 := by norm_num
  have h5b : (1 / 2 : ℚ) * 5 = 5 / 2 := by norm_num
  have h360b : (1 / 2 : ℚ) * 360 = 180 := by norm_num
  have hfa : ⌊(0 : ℚ)⌋ = 0 := by norm_num
  have hfb : ⌊(5 / 2 : ℚ)⌋ = 2 := by norm_num [Int.floor_eq_iff]
  have hr12 : List.range 12 = [0, 1, 2, 3, 4, 5, 6, 7, 8, 9, 10, 11] := by
    decide
  have hr30 : List.range 30 =
      [0, 1, 2, 3, 4, 5, 6, 7, 8, 9, 10, 11, 12, 13, 14, 15, 16, 17, 18, 19,
        20, 21, 22, 23, 24, 25, 26, 27, 28, 29] := by decide
  have hs0 : ((0 : ℕ) : ℚ) * 30 = 0 := by norm_num
  have hs1 : ((1 : ℕ) : ℚ) * 30 = 30 := by norm_num
  have hs2 : ((2 : ℕ) : ℚ) * 30 = 60 := by norm_num
  have hs3 : ((3 : ℕ) : ℚ) * 30 = 90 := by norm_num
  have hs4 : ((4 : ℕ) : ℚ) * 30 = 120 := by norm_num
  have hs5 : ((5 : ℕ) : ℚ) * 30 = 150 := by norm_num
  have hs6 : ((6 : ℕ) : ℚ) * 30 = 180 := by norm_num
  have hs7 : ((7 : ℕ) : ℚ) * 30 = 210 := by norm_num
  have hs8 : ((8 : ℕ) : ℚ) * 30 = 240 := by norm_num
  have hs9 : ((9 : ℕ) : ℚ) * 30 = 270 := by norm_num
  have hs10 : ((10 : ℕ) : ℚ) * 30 = 300 := by norm_num
  have hs11 : ((11 : ℕ) : ℚ) * 30 = 330 := by norm_num
  have j0 : jsNum 0 = "0" := by decide
  have j30 : jsNum 30 = "30" := by decide
  have j60 : jsNum 60 = "60" := by decide
  have j90 : jsNum 90 = "90" := by decide
  have j120 : jsNum 120 = "120" := by decide
  have j150 : jsNum 150 = "150" := by decide
  have j180 : jsNum 180 = "180" := by decide
  have j210 : jsNum 210 = "210" := by decide
  have j240 : jsNum 240 = "240" := by decide
  have j270 : jsNum 270 = "270" := by decide
  have j300 : jsNum 300 = "300" := by decide
  have j330 : jsNum 330 = "330" := by decide
  have j225 : jsNum 225 = "225" := by decide
  have j400 : jsNum 400 = "400" := by decide
  intro h
  have hl := congrArg String.length h
  simp only [generateSVGPostcard, wonContent, hr12, hr30, List.map_cons,
    List.map_nil, sunRay, confettiRect, h800a, h450a, h5a, h360a, h800b,
    h450b, h5b, h360b, hfa, hfb, hs0, hs1, hs2, hs3, hs4, hs5, hs6, hs7,
    hs8, hs9, hs10, hs11, j0, j30, j60, j90, j120, j150, j180, j210, j240,
    j270, j300, j330, j225, j400, join_cons, join_nil] at hl
  simp only [String.length_append, btoaUtf8_length, utf8Bytes_append,
    List.length_append] at hl
  exact absurd hl (by decide)

/-- C9 (amended): `generateSVGPostcard` is a pure, local, synchronous,
total function of the outcome, the word, and the `Math.random()` draws
made while rendering: it never fails, and two invocations with the same
outcome, word and draw sequence return the same image reference.  (As
originally stated — determinism in outcome and word alone — the claim
fails; see the counterexample.) -/
theorem claim_C9_postcard_deterministic (result : GameResult) (word : String)
    (r₁ r₂ : ℕ → ℚ) (h : ∀ n, r₁ n = r₂ n) :
    generateSVGPostcard result word r₁ = generateSVGPostcard result word r₂ := by
  have hr : r₁ = r₂ := funext h
  rw [hr]

/-- Witness for the amended C9 at a concrete outcome, word and stream. -/
theorem claim_C9_witness :
    generateSVGPostcard GameResult.LOST "GAT" (fun _ => 0) =
      generateSVGPostcard GameResult.LOST "GAT" (fun n => 0 * (n : ℚ)) :=
  claim_C9_postcard_deterministic GameResult.LOST "GAT" (fun _ => 0)
    (fun n => 0 * (n : ℚ)) (fun n => by norm_num)

/-- C3 fails on the code: on a fresh session against word "Z", six wrong
guesses bring `wrongCount` to `MAX_ERRORS = 6` with the status still
`PLAYING` (the `LOST` transition is deferred by a timer), and a seventh
wrong guess submitted during that delay window is accepted, driving
`wrongCount` to 7 > `MAX_ERRORS` — the spec's bound is violated.  (The
monotone non-decrease half of the claim does hold; the bound does not.) -/
theorem claim_C3_wrongCount_exceeds_limit :
    MAX_ERRORS = 6 ∧
    (runW (fun _ => 0)
      (freshSession { word := "Z", hint := "h", imageSrc := "i" })
      ((['A', 'B', 'C', 'D', 'E', 'F'] : List Char).map Ev.guess)).app.wrongCount
      = 6 ∧
    (runW (fun _ => 0)
      (freshSession { word := "Z", hint := "h", imageSrc := "i" })
      ((['A', 'B', 'C', 'D', 'E', 'F'] : List Char).map Ev.guess)).app.status
      = GameStatus.PLAYING ∧
    (runW (fun _ => 0)
      (freshSession { word := "Z", hint := "h", imageSrc := "i" })
      ((['A', 'B', 'C', 'D', 'E', 'F', 'G'] : List Char).map Ev.guess)).app.wrongCount
      = 7 :=
  ⟨rfl, by decide, by decide, by decide⟩

/-- C6 fails on the code: after winning on word "A" the deferred
`handleGameEnd('WON')` timer is pending with the old non-null `data`
captured in its closure; a session reset (`startGame`) puts the app in
`LOADING` with `data = none` but does not cancel the timer, and when the
stale timer fires its `if (!data) return` guard checks the captured old
`data`, so it sets the freshly reset session's status to `WON`. -/
theorem claim_C6_stale_timer_overwrites_reset :
    (runW (fun _ => 0)
      (freshSession { word := "A", hint := "h", imageSrc := "i" })
      [Ev.guess 'A', Ev.reset]).app.status = GameStatus.LOADING ∧
    (runW (fun _ => 0)
      (freshSession { word := "A", hint := "h", imageSrc := "i" })
      [Ev.guess 'A', Ev.reset]).pending =
      [GameTask.endTask (some { word := "A", hint := "h", imageSrc := "i" })
        GameResult.WON] ∧
    (runW (fun _ => 0)
      (freshSession { word := "A", hint := "h", imageSrc := "i" })
      [Ev.guess 'A', Ev.reset, Ev.fire 0]).app.data = none ∧
    (runW (fun _ => 0)
      (freshSession { word := "A", hint := "h", imageSrc := "i" })
      [Ev.guess 'A', Ev.reset, Ev.fire 0]).app.status = GameStatus.WON :=
  ⟨by decide, by decide, by decide, by decide⟩
